import Mathlib

/-!
Shallow embedding of the overworld world-generation core
(src/overworld/world/biome.py, plate_tectonics.py, world_generator.py,
world.py, tile.py, climate_system.py) and proofs about the spec claims.

Python floats are modelled as rationals; every comparison in the source
is against an exact decimal constant, so the rational embedding performs
exactly the comparisons the source performs.  Python dictionaries keyed
by strings are modelled as functions from String; raised exceptions are
modelled with Except; the process-global random streams consumed by the
source are modelled as explicit stream parameters.
-/

namespace Overworld

/-- Biome catalog of biome.py, class BiomeType (the closed enum). -/
inductive BiomeType where
  | OCEAN_DEEP | OCEAN_SHALLOW | COASTAL
  | GLACIER | TUNDRA | TAIGA
  | GRASSLAND | TEMPERATE_FOREST | TEMPERATE_RAINFOREST
  | DESERT_HOT | DESERT_COLD | SAVANNA
  | TROPICAL_RAINFOREST | TROPICAL_SEASONAL_FOREST | JUNGLE
  | MOUNTAIN_LOW | MOUNTAIN_HIGH | MOUNTAIN_PEAK
  | SWAMP | MANGROVE | SHRUBLAND | STEPPE
  deriving DecidableEq, Repr

/-- BiomeClassifier.classify of biome.py (lines 437-514), translated
branch for branch: the priority cascade water, coast, mountain, glacial,
desert, tropical, temperate, final default shrubland. -/
def classify (altitude temperature humidity : ℚ) : BiomeType :=
  -- Prioritat 1: Aigua
  if altitude < 35/100 then
    if altitude < 25/100 then BiomeType.OCEAN_DEEP else BiomeType.OCEAN_SHALLOW
  -- Prioritat 2: Costa
  else if 35/100 ≤ altitude ∧ altitude < 42/100 ∧ humidity > 7/10 then
    if temperature > 7/10 then BiomeType.MANGROVE else BiomeType.COASTAL
  -- Prioritat 3: Muntanyes
  else if altitude ≥ 85/100 then BiomeType.MOUNTAIN_PEAK
  else if altitude ≥ 75/100 then BiomeType.MOUNTAIN_HIGH
  else if altitude ≥ 65/100 then BiomeType.MOUNTAIN_LOW
  -- Prioritat 4: Glacials
  else if temperature < 15/100 then BiomeType.GLACIER
  else if temperature < 25/100 then BiomeType.TUNDRA
  else if temperature < 40/100 then BiomeType.TAIGA
  -- Prioritat 5: Deserts
  else if humidity < 2/10 then
    if temperature > 75/100 then BiomeType.DESERT_HOT
    else if temperature < 4/10 then BiomeType.DESERT_COLD
    else BiomeType.STEPPE
  -- Prioritat 6: Tropicals
  else if temperature > 75/100 then
    if humidity > 85/100 then
      if altitude > 45/100 then BiomeType.JUNGLE else BiomeType.TROPICAL_RAINFOREST
    else if humidity > 5/10 then BiomeType.TROPICAL_SEASONAL_FOREST
    else BiomeType.SAVANNA
  -- Temperats
  else if 4/10 ≤ temperature ∧ temperature ≤ 75/100 then
    if humidity > 85/100 then BiomeType.SWAMP
    else if humidity > 8/10 then BiomeType.TEMPERATE_RAINFOREST
    else if humidity > 5/10 then BiomeType.TEMPERATE_FOREST
    else if humidity > 3/10 then BiomeType.GRASSLAND
    else BiomeType.SHRUBLAND
  -- Default: Matoll
  else BiomeType.SHRUBLAND

/-- Tile of tile.py, restricted to the fields the world-generation core
reads or writes (coordinates, the three climate scalars, biome, the
string-keyed resource dictionary, water and river state).  The biome
field is Optional in the source (None until classified), hence Option. -/
@[ext]
structure Tile where
  x : ℤ
  y : ℤ
  altitude : ℚ
  humidity : ℚ
  temperature : ℚ
  biome : Option BiomeType
  resources : String → ℚ
  is_water : Bool
  is_river : Bool
  river_flow : ℚ

/-- WorldGenerator.assign_biomes of world_generator.py (lines 280-309):
every tile of the grid gets classify(altitude, temperature, humidity)
written into its biome field. -/
def assignBiomes (tiles : List (List Tile)) : List (List Tile) :=
  tiles.map (fun row => row.map (fun t =>
    { t with biome := some (classify t.altitude t.temperature t.humidity) }))

end Overworld

namespace Overworld

/-- C5: the biome classifier is total with shrubland as the effective
default: (a) after assign_biomes every tile of the grid carries a
non-absent biome; (b) whenever the water, coast, mountain, glacial,
desert and tropical rules all fail and the temperate branch reaches its
last case, classify returns SHRUBLAND. -/
theorem classify_total_default
    (tiles : List (List Tile)) (row : List Tile) (t : Tile)
    (hrow : row ∈ assignBiomes tiles) (ht : t ∈ row)
    (a temp hum : ℚ)
    (h1 : ¬ a < 35/100) (h2 : ¬ (35/100 ≤ a ∧ a < 42/100 ∧ hum > 7/10))
    (h3 : a < 65/100) (h4 : ¬ temp < 40/100) (h5 : ¬ hum < 2/10)
    (h6 : ¬ temp > 75/100) (h7 : ¬ hum > 3/10) :
    t.biome.isSome ∧ classify a temp hum = BiomeType.SHRUBLAND := by
  constructor
  · simp only [assignBiomes, List.mem_map] at hrow
    obtain ⟨r0, _, rfl⟩ := hrow
    simp only [List.mem_map] at ht
    obtain ⟨t0, _, rfl⟩ := ht
    rfl
  · have h3a : ¬ a ≥ 85/100 := by linarith
    have h3b : ¬ a ≥ 75/100 := by linarith
    have h3c : ¬ a ≥ 65/100 := by linarith
    have h4a : ¬ temp < 15/100 := by linarith
    have h4b : ¬ temp < 25/100 := by linarith
    have h7a : ¬ hum > 85/100 := by linarith
    have h7b : ¬ hum > 8/10 := by linarith
    have h7c : ¬ hum > 5/10 := by linarith
    have h8 : 4/10 ≤ temp ∧ temp ≤ 75/100 := by constructor <;> linarith
    simp only [classify, if_neg h1, if_neg h2, if_neg h3a, if_neg h3b, if_neg h3c,
      if_neg h4a, if_neg h4b, if_neg h4, if_neg h5, if_neg h6, if_pos h8,
      if_neg h7a, if_neg h7b, if_neg h7c, if_neg h7]

/-- Concrete instantiation of classify_total_default: a one-tile grid,
and the rule-failure hypotheses at altitude 0.5, temperature 0.5,
humidity 0.25. -/
theorem classify_total_default_witness :
    (Tile.mk 0 0 (1/2) (1/4) (1/2) (some (classify (1/2) (1/2) (1/4)))
        (fun _ => 0) false false 0).biome.isSome ∧
      classify (1/2) (1/2) (1/4) = BiomeType.SHRUBLAND := by
  have h := classify_total_default
    [[Tile.mk 0 0 (1/2) (1/4) (1/2) none (fun _ => 0) false false 0]]
    [Tile.mk 0 0 (1/2) (1/4) (1/2) (some (classify (1/2) (1/2) (1/4)))
        (fun _ => 0) false false 0]
    (Tile.mk 0 0 (1/2) (1/4) (1/2) (some (classify (1/2) (1/2) (1/4)))
        (fun _ => 0) false false 0)
    (by simp [assignBiomes]) (by simp)
    (1/2) (1/2) (1/4)
    (by norm_num) (by norm_num) (by norm_num) (by norm_num)
    (by norm_num) (by norm_num) (by norm_num)
  exact h

/-- C6: classify(0.2, 0.5, 0.5) is OCEAN_DEEP; classify(0.5, 0.9, 0.9)
is JUNGLE; at temperature 0.9 and humidity 0.9 with altitude past the
coast band and below the mountain band the tropical rule splits jungle
against tropical rainforest at altitude 0.45; and the water rule fires
first: any altitude below 0.35 yields ocean (deep below 0.25) regardless
of temperature and humidity. -/
theorem classify_scenario_c
    (a b temp hum : ℚ) (ha1 : 42/100 ≤ a) (ha2 : a < 65/100) (hw : b < 35/100) :
    classify (2/10) (1/2) (1/2) = BiomeType.OCEAN_DEEP ∧
    classify (1/2) (9/10) (9/10) = BiomeType.JUNGLE ∧
    classify a (9/10) (9/10) =
      (if a > 45/100 then BiomeType.JUNGLE else BiomeType.TROPICAL_RAINFOREST) ∧
    classify b temp hum =
      (if b < 25/100 then BiomeType.OCEAN_DEEP else BiomeType.OCEAN_SHALLOW) := by
  refine ⟨by norm_num [classify], by norm_num [classify], ?_, ?_⟩
  · have h1 : ¬ a < 35/100 := by linarith
    have h2 : ¬ (35/100 ≤ a ∧ a < 42/100 ∧ (9/10 : ℚ) > 7/10) := by
      rintro ⟨-, hlt, -⟩; linarith
    have h3a : ¬ a ≥ 85/100 := by linarith
    have h3b : ¬ a ≥ 75/100 := by linarith
    have h3c : ¬ a ≥ 65/100 := by linarith
    simp only [classify, if_neg h1, if_neg h2, if_neg h3a, if_neg h3b, if_neg h3c]
    norm_num
  · simp only [classify, if_pos hw]

/-- Concrete instantiation of classify_scenario_c at altitude 0.5 for
the jungle split and altitude 0.2 for the water rule. -/
theorem classify_scenario_c_witness :
    classify (2/10) (1/2) (1/2) = BiomeType.OCEAN_DEEP ∧
    classify (1/2) (9/10) (9/10) = BiomeType.JUNGLE ∧
    classify (1/2) (9/10) (9/10) =
      (if (1/2 : ℚ) > 45/100 then BiomeType.JUNGLE else BiomeType.TROPICAL_RAINFOREST) ∧
    classify (1/5) (1/2) (1/2) =
      (if (1/5 : ℚ) < 25/100 then BiomeType.OCEAN_DEEP else BiomeType.OCEAN_SHALLOW) :=
  classify_scenario_c (1/2) (1/5) (1/2) (1/2)
    (by norm_num) (by norm_num) (by norm_num)

/-! ## Plate tectonics (plate_tectonics.py) -/

/-- PlateType of plate_tectonics.py. -/
inductive PlateType where
  | oceanic | continental
  deriving DecidableEq, Repr

/-- BoundaryType of plate_tectonics.py. -/
inductive BoundaryType where
  | divergent | convergent | transform
  deriving DecidableEq, Repr

/-- Squared seed distance of PlateTectonicsSystem.generate_plates
(lines 115-117): dx = min(|x-sx|, width-|x-sx|) and
dy = min(|y-sy|, height-|y-sy|), both axes wrap; the source compares
sqrt(dx^2+dy^2) values, and since the square root is strictly monotone
the comparisons coincide with comparisons of dx^2+dy^2 (see
sqrt_distSq_lt below). -/
def toroidalD (size a b : ℤ) : ℤ := min |a - b| (size - |a - b|)

/-- Squared distance between grid cell (x,y) and seed (sx,sy), with the
wrap-around of generate_plates on both axes. -/
def distSq (w h x y sx sy : ℤ) : ℤ :=
  toroidalD w x sx ^ 2 + toroidalD h y sy ^ 2

/-- Modelled from the spec words of C3 only, for refinement comparison
with distSq: toroidal on the X axis but the plain difference |y - sy| on
the Y axis. -/
def specDistSq (w x y sx sy : ℤ) : ℤ :=
  toroidalD w x sx ^ 2 + |y - sy| ^ 2

/-- One step of the nearest-seed fold of generate_plates (lines
110-121): state is (min_dist so far as Option, closest plate id, the
initial state (none, 0) standing for (infinity, 0)); a seed replaces the
state only on strictly smaller distance, so the earliest seed wins
ties. -/
def closestStep (w h x y : ℤ) (st : Option ℤ × ℕ) (s : ℤ × ℤ × ℕ) :
    Option ℤ × ℕ :=
  let d := distSq w h x y s.1 s.2.1
  match st.1 with
  | none => (some d, s.2.2)
  | some m => if d < m then (some d, s.2.2) else st

/-- Nearest-seed assignment of generate_plates: the plate id of the seed
minimizing the wrapped distance, earliest seed winning ties, 0 when the
seed list is empty (the source initializes closest_plate = 0). -/
def closestPlate (w h : ℤ) (seeds : List (ℤ × ℤ × ℕ)) (x y : ℤ) : ℕ :=
  (seeds.foldl (closestStep w h x y) (none, 0)).2

/-- Seed list of generate_plates (lines 100-104): seed i is at the
random coordinates (rx i, ry i) and carries plate id i. -/
def genSeeds (n : ℕ) (rx ry : ℕ → ℤ) : List (ℤ × ℤ × ℕ) :=
  (List.range n).map (fun i => (rx i, ry i, i))

/-- The full coordinate grid range(width) x range(height), as ℤ pairs. -/
def gridCells (w h : ℕ) : Finset (ℤ × ℤ) :=
  (Finset.range w ×ˢ Finset.range h).image (fun p => ((p.1 : ℤ), (p.2 : ℤ)))

/-- Tile set of plate i per generate_plates lines 142-145: the grid
cells whose plate_map entry is i. -/
def plateTiles (w h : ℕ) (seeds : List (ℤ × ℤ × ℕ)) (i : ℕ) :
    Finset (ℤ × ℤ) :=
  (gridCells w h).filter (fun p => closestPlate w h seeds p.1 p.2 = i)

/-- Base activity per boundary type,
PlateTectonicsSystem._calculate_boundary_activity lines 243-248. -/
def baseActivity : BoundaryType → ℚ
  | .convergent => 8/10
  | .divergent => 6/10
  | .transform => 7/10

/-- PlateTectonicsSystem._calculate_boundary_activity (lines 230-252):
activity = base_activity * (rel_speed / 10), then min(1, activity).
The relative speed sqrt(rel_vx^2 + rel_vy^2) is taken as the already
extracted nonnegative magnitude parameter relSpeed. -/
def calcBoundaryActivity (bt : BoundaryType) (relSpeed : ℚ) : ℚ :=
  min 1 (baseActivity bt * (relSpeed / 10))

/-- Modelled from the spec words of C4 only, for refinement comparison
with calcBoundaryActivity: baseActivity(type) * min(1, relSpeed/10). -/
def specBoundaryActivity (bt : BoundaryType) (relSpeed : ℚ) : ℚ :=
  baseActivity bt * min 1 (relSpeed / 10)

/-- The strict distance comparisons generate_plates performs on square
roots coincide with comparisons of the squared distances the embedding
uses: squared distances are nonnegative and sqrt is strictly monotone
there. -/
lemma sqrt_distSq_lt (w h x y sx sy tx ty : ℤ) :
    Real.sqrt ((distSq w h x y sx sy : ℤ) : ℝ) <
        Real.sqrt ((distSq w h x y tx ty : ℤ) : ℝ) ↔
      distSq w h x y sx sy < distSq w h x y tx ty := by
  have h0 : (0 : ℝ) ≤ ((distSq w h x y sx sy : ℤ) : ℝ) := by
    have : (0 : ℤ) ≤ distSq w h x y sx sy := by unfold distSq; positivity
    exact_mod_cast this
  rw [Real.sqrt_lt_sqrt_iff h0]
  exact Int.cast_lt

/-- The plate id a closestStep fold returns is either the initial id or
the id of one of the folded seeds. -/
lemma closest_fold_snd (w h x y : ℤ) :
    ∀ (l : List (ℤ × ℤ × ℕ)) (st : Option ℤ × ℕ),
      (l.foldl (closestStep w h x y) st).2 = st.2 ∨
        ∃ s ∈ l, (l.foldl (closestStep w h x y) st).2 = s.2.2 := by
  intro l
  induction l with
  | nil => intro st; exact Or.inl rfl
  | cons a l ih =>
    intro st
    rw [List.foldl_cons]
    rcases ih (closestStep w h x y st a) with hl | ⟨s, hs, he⟩
    · have hcase : (closestStep w h x y st a).2 = st.2 ∨
          (closestStep w h x y st a).2 = a.2.2 := by
        rcases st with ⟨m?, i⟩
        cases m? with
        | none => exact Or.inr rfl
        | some m =>
          by_cases hlt : distSq w h x y a.1 a.2.1 < m
          · right; simp [closestStep, hlt]
          · left; simp [closestStep, hlt]
      rcases hcase with h1 | h1
      · exact Or.inl (hl.trans h1)
      · exact Or.inr ⟨a, List.mem_cons_self a l, hl.trans h1⟩
    · exact Or.inr ⟨s, List.mem_cons_of_mem a hs, he⟩

/-- Minimality invariant of the closestStep fold starting from a
definite state (some m, i): the final min is at most m, at most every
folded seed distance, and is realized either by the initial state or by
a folded seed that also supplies the final plate id. -/
lemma closest_fold_min (w h x y : ℤ) :
    ∀ (l : List (ℤ × ℤ × ℕ)) (m : ℤ) (i : ℕ),
      ∃ mf, (l.foldl (closestStep w h x y) (some m, i)).1 = some mf ∧
        ((l.foldl (closestStep w h x y) (some m, i)).2 = i ∧ mf = m ∨
          ∃ s ∈ l, (l.foldl (closestStep w h x y) (some m, i)).2 = s.2.2 ∧
            mf = distSq w h x y s.1 s.2.1) ∧
        mf ≤ m ∧ ∀ s ∈ l, mf ≤ distSq w h x y s.1 s.2.1 := by
  intro l
  induction l with
  | nil =>
    intro m i
    exact ⟨m, rfl, Or.inl ⟨rfl, rfl⟩, le_refl m, by simp⟩
  | cons a l ih =>
    intro m i
    rw [List.foldl_cons]
    by_cases hlt : distSq w h x y a.1 a.2.1 < m
    · have hstep : closestStep w h x y (some m, i) a =
          (some (distSq w h x y a.1 a.2.1), a.2.2) := by
        unfold closestStep; simp [hlt]
      rw [hstep]
      obtain ⟨mf, h1, h2, h3, h4⟩ := ih (distSq w h x y a.1 a.2.1) a.2.2
      refine ⟨mf, h1, ?_, le_of_lt (lt_of_le_of_lt h3 hlt), ?_⟩
      · rcases h2 with ⟨he, hm⟩ | ⟨s, hs, he, hm⟩
        · exact Or.inr ⟨a, List.mem_cons_self a l, he, hm⟩
        · exact Or.inr ⟨s, List.mem_cons_of_mem a hs, he, hm⟩
      · intro s hs
        rcases List.mem_cons.mp hs with rfl | hs
        · exact h3
        · exact h4 s hs
    · have hstep : closestStep w h x y (some m, i) a = (some m, i) := by
        unfold closestStep; simp [hlt]
      rw [hstep]
      obtain ⟨mf, h1, h2, h3, h4⟩ := ih m i
      refine ⟨mf, h1, ?_, h3, ?_⟩
      · rcases h2 with ⟨he, hm⟩ | ⟨s, hs, he, hm⟩
        · exact Or.inl ⟨he, hm⟩
        · exact Or.inr ⟨s, List.mem_cons_of_mem a hs, he, hm⟩
      · intro s hs
        rcases List.mem_cons.mp hs with rfl | hs
        · exact le_trans h3 (le_of_not_lt hlt)
        · exact h4 s hs

/-- For the seed list of generate_plates with n plates, every cell is
assigned a plate id below n. -/
lemma closestPlate_lt (w h : ℕ) (n : ℕ) (rx ry : ℕ → ℤ) (hn : 1 ≤ n)
    (x y : ℤ) : closestPlate w h (genSeeds n rx ry) x y < n := by
  unfold closestPlate
  rcases closest_fold_snd w h x y (genSeeds n rx ry) (none, 0) with he | ⟨s, hs, he⟩
  · rw [he]; exact hn
  · rw [he]
    simp only [genSeeds, List.mem_map, List.mem_range] at hs
    obtain ⟨i, hi, rfl⟩ := hs
    exact hi

/-- C2: after plate generation with numPlates = n at least 1, exactly n
plate objects are created, every grid cell belongs to exactly one plate
tile set, and the tile-set cardinalities sum to width * height. -/
theorem plates_partition (w h n : ℕ) (rx ry : ℕ → ℤ) (hn : 1 ≤ n) :
    ((List.range n).map (plateTiles w h (genSeeds n rx ry))).length = n ∧
    (∀ p ∈ gridCells w h,
      ∃! i, i < n ∧ p ∈ plateTiles w h (genSeeds n rx ry) i) ∧
    ∑ i ∈ Finset.range n, (plateTiles w h (genSeeds n rx ry) i).card = w * h := by
  refine ⟨by simp, ?_, ?_⟩
  · intro p hp
    refine ⟨closestPlate w h (genSeeds n rx ry) p.1 p.2,
      ⟨closestPlate_lt w h n rx ry hn p.1 p.2, Finset.mem_filter.mpr ⟨hp, rfl⟩⟩, ?_⟩
    rintro j ⟨-, hj⟩
    exact ((Finset.mem_filter.mp hj).2).symm
  · have hmaps : ∀ p ∈ gridCells w h,
        (fun q : ℤ × ℤ => closestPlate w h (genSeeds n rx ry) q.1 q.2) p ∈
          Finset.range n :=
      fun p _ => Finset.mem_range.mpr (closestPlate_lt w h n rx ry hn p.1 p.2)
    have hsum := Finset.card_eq_sum_card_fiberwise hmaps
    have hcard : (gridCells w h).card = w * h := by
      unfold gridCells
      rw [Finset.card_image_of_injective _ (fun p q hpq => by
        rcases p with ⟨p1, p2⟩; rcases q with ⟨q1, q2⟩
        simp only [Prod.mk.injEq, Int.natCast_inj] at hpq
        exact Prod.ext hpq.1 hpq.2)]
      rw [Finset.card_product, Finset.card_range, Finset.card_range]
    rw [hcard] at hsum
    exact hsum.symm

/-- Concrete instantiation of plates_partition at scenario B: a 20 x 20
grid with 4 plates. -/
theorem plates_partition_witness :
    ((List.range 4).map
        (plateTiles 20 20 (genSeeds 4 (fun i => 5 * i) (fun i => 7 * i)))).length = 4 ∧
    (∀ p ∈ gridCells 20 20,
      ∃! i, i < 4 ∧
        p ∈ plateTiles 20 20 (genSeeds 4 (fun i => 5 * i) (fun i => 7 * i)) i) ∧
    ∑ i ∈ Finset.range 4,
        (plateTiles 20 20 (genSeeds 4 (fun i => 5 * i) (fun i => 7 * i)) i).card =
      20 * 20 :=
  plates_partition 20 20 4 (fun i => 5 * i) (fun i => 7 * i) (by norm_num)

/-- C3 (amended): every grid cell is assigned a plate whose seed
minimizes sqrt(dx^2 + dy^2) where BOTH axes wrap toroidally
(dx = min(|x-sx|, width-|x-sx|), dy = min(|y-sy|, height-|y-sy|)),
the earliest seed winning ties. -/
theorem closestPlate_minimizes (w h : ℤ) (seeds : List (ℤ × ℤ × ℕ)) (x y : ℤ)
    (hs : seeds ≠ []) :
    ∃ s ∈ seeds, s.2.2 = closestPlate w h seeds x y ∧
      ∀ s2 ∈ seeds, Real.sqrt ((distSq w h x y s.1 s.2.1 : ℤ) : ℝ) ≤
        Real.sqrt ((distSq w h x y s2.1 s2.2.1 : ℤ) : ℝ) := by
  rcases seeds with _ | ⟨a, l⟩
  · exact absurd rfl hs
  unfold closestPlate
  rw [List.foldl_cons]
  have hstep : closestStep w h x y (none, 0) a =
      (some (distSq w h x y a.1 a.2.1), a.2.2) := rfl
  rw [hstep]
  obtain ⟨mf, -, h2, h3, h4⟩ :=
    closest_fold_min w h x y l (distSq w h x y a.1 a.2.1) a.2.2
  rcases h2 with ⟨he, hm⟩ | ⟨s, hsl, he, hm⟩
  · refine ⟨a, List.mem_cons_self a l, he.symm, ?_⟩
    intro s2 hs2
    apply Real.sqrt_le_sqrt
    have hle : distSq w h x y a.1 a.2.1 ≤ distSq w h x y s2.1 s2.2.1 := by
      rcases List.mem_cons.mp hs2 with rfl | hs2
      · exact le_refl _
      · rw [← hm]; exact h4 s2 hs2
    exact_mod_cast hle
  · refine ⟨s, List.mem_cons_of_mem a hsl, he.symm, ?_⟩
    intro s2 hs2
    apply Real.sqrt_le_sqrt
    have hle : distSq w h x y s.1 s.2.1 ≤ distSq w h x y s2.1 s2.2.1 := by
      rw [← hm]
      rcases List.mem_cons.mp hs2 with rfl | hs2
      · exact h3
      · exact h4 s2 hs2
    exact_mod_cast hle

/-- Concrete instantiation of closestPlate_minimizes on a 3 x 5 grid
with seeds at (0,0) and (0,3). -/
theorem closestPlate_minimizes_witness :
    ∃ s ∈ [((0 : ℤ), (0 : ℤ), (0 : ℕ)), (0, 3, 1)],
      s.2.2 = closestPlate 3 5 [(0, 0, 0), (0, 3, 1)] 0 4 ∧
      ∀ s2 ∈ [((0 : ℤ), (0 : ℤ), (0 : ℕ)), (0, 3, 1)],
        Real.sqrt ((distSq 3 5 0 4 s.1 s.2.1 : ℤ) : ℝ) ≤
          Real.sqrt ((distSq 3 5 0 4 s2.1 s2.2.1 : ℤ) : ℝ) :=
  closestPlate_minimizes 3 5 [(0, 0, 0), (0, 3, 1)] 0 4 (by simp)

/-- C3 counterexample: on a 3 x 5 grid with seeds at (0,0) for plate 0
and (0,3) for plate 1, the cell (0,4) is assigned plate 0 by the code,
although under the claimed metric (plain, non-wrapping Y difference) the
seed of plate 1 is strictly nearer (distance 1 against 4): the code also
wraps the Y axis, giving a tie broken toward the earlier seed. -/
theorem closestPlate_plain_y_counterexample :
    closestPlate 3 5 [(0, 0, 0), (0, 3, 1)] 0 4 = 0 ∧
    specDistSq 3 0 4 0 3 < specDistSq 3 0 4 0 0 ∧
    Real.sqrt ((specDistSq 3 0 4 0 3 : ℤ) : ℝ) <
      Real.sqrt ((specDistSq 3 0 4 0 0 : ℤ) : ℝ) := by
  refine ⟨by decide, by decide, ?_⟩
  have h1 : specDistSq 3 0 4 0 3 = 1 := by decide
  have h2 : specDistSq 3 0 4 0 0 = 16 := by decide
  rw [h1, h2]
  have hlt : Real.sqrt 1 < Real.sqrt 16 :=
    Real.sqrt_lt_sqrt (by norm_num) (by norm_num)
  simpa using hlt

/-- C4 counterexample: at relative speed 20 (realizable as the magnitude
of the velocity difference of plates moving at (10,0) and (-10,0) cm/yr,
both speeds inside the drawn range [2,10]), the code computes activity
min(1, 0.8 * 20/10) = 1 for a convergent boundary, while the claimed
formula 0.8 * min(1, 20/10) gives 0.8. -/
theorem boundary_activity_clamp_counterexample :
    calcBoundaryActivity BoundaryType.convergent 20 = 1 ∧
    specBoundaryActivity BoundaryType.convergent 20 = 8/10 ∧
    calcBoundaryActivity BoundaryType.convergent 20 ≠
      specBoundaryActivity BoundaryType.convergent 20 ∧
    ((10 : ℚ) - (-10)) ^ 2 + ((0 : ℚ) - 0) ^ 2 = 20 ^ 2 := by
  refine ⟨?_, ?_, ?_, by norm_num⟩ <;>
    simp [calcBoundaryActivity, specBoundaryActivity, baseActivity, min_def] <;>
    norm_num

/-- C4 (amended): the boundary activity equals
min(1, baseActivity(type) * relSpeed/10): the clamp is applied to the
product, which coincides with the claimed
baseActivity(type) * min(1, relSpeed/10) exactly on the relative speeds
of at most 10; base activities are 0.8 convergent, 0.6 divergent, 0.7
transform as claimed. -/
theorem boundary_activity_amended (bt : BoundaryType) (s : ℚ)
    (h0 : 0 ≤ s) (h10 : s ≤ 10) :
    calcBoundaryActivity bt s = specBoundaryActivity bt s ∧
    baseActivity BoundaryType.convergent = 8/10 ∧
    baseActivity BoundaryType.divergent = 6/10 ∧
    baseActivity BoundaryType.transform = 7/10 := by
  refine ⟨?_, rfl, rfl, rfl⟩
  have hs1 : s / 10 ≤ 1 := by linarith
  cases bt <;>
  · simp only [calcBoundaryActivity, specBoundaryActivity, baseActivity]
    rw [min_eq_right hs1, min_eq_right (by nlinarith)]

/-- Concrete instantiation of boundary_activity_amended at a convergent
boundary with relative speed 5. -/
theorem boundary_activity_amended_witness :
    calcBoundaryActivity BoundaryType.convergent 5 =
      specBoundaryActivity BoundaryType.convergent 5 ∧
    baseActivity BoundaryType.convergent = 8/10 ∧
    baseActivity BoundaryType.divergent = 6/10 ∧
    baseActivity BoundaryType.transform = 7/10 :=
  boundary_activity_amended BoundaryType.convergent 5 (by norm_num) (by norm_num)

/-! ## Geological event simulation (plate_tectonics.py lines 254-352) -/

/-- TectonicPlate of plate_tectonics.py: id, type, owned tiles, velocity
components in cm/year, age. -/
structure TectonicPlate where
  plate_id : ℕ
  plate_type : PlateType
  tiles : Finset (ℤ × ℤ)
  velocity_x : ℚ
  velocity_y : ℚ
  age : ℤ

/-- PlateBoundary of plate_tectonics.py: the two plate ids, the
boundary type, the boundary tile list and the activity level. -/
structure PlateBoundary where
  plate1_id : ℕ
  plate2_id : ℕ
  boundary_type : BoundaryType
  tiles : List (ℤ × ℤ)
  activity_level : ℚ

/-- GeologicalEvent of plate_tectonics.py, without the free-text
description field (presentation only, not modelled). -/
structure GeologicalEvent where
  event_type : String
  x : ℤ
  y : ℤ
  year : ℤ
  magnitude : ℚ

/-- random.uniform(a, b) as a + r * (b - a) for a unit-interval draw r. -/
def uniformDraw (a b r : ℚ) : ℚ := a + r * (b - a)

/-- Raise the altitude of the tile at xy by delta, capped at 1.0:
world_tiles[(x, y)].altitude = min(1.0, altitude + delta), a no-op when
the coordinate is not a key of world_tiles. -/
def raiseAltitude (alts : ℤ × ℤ → Option ℚ) (xy : ℤ × ℤ) (delta : ℚ) :
    ℤ × ℤ → Option ℚ :=
  fun p => if p = xy then (alts p).map (fun a => min 1 (a + delta)) else alts p

/-- Loop body of PlateTectonicsSystem.simulate_geological_events (lines
271-350) for one boundary.  plates is the plate dictionary (total: ids
recorded in boundaries are always present in the source system); the
draws of the process-global random module are explicit: rSkip for the
skip test, choiceIdx for random.choice over the boundary tiles, rBranch
for the volcano-against-earthquake test, rMag for random.uniform.
Returns the generated event (none when skipped or the tile list is
empty) and the updated altitude map. -/
def simulateBoundaryEvent (plates : ℕ → TectonicPlate) (year : ℤ)
    (b : PlateBoundary) (rSkip : ℚ) (choiceIdx : ℕ) (rBranch : ℚ) (rMag : ℚ)
    (alts : ℤ × ℤ → Option ℚ) :
    Option GeologicalEvent × (ℤ × ℤ → Option ℚ) :=
  if rSkip > b.activity_level then (none, alts)
  else
    match b.tiles with
    | [] => (none, alts)
    | t :: ts =>
      let xy := (t :: ts).get ⟨choiceIdx % (ts.length + 1),
        Nat.mod_lt _ (Nat.succ_pos _)⟩
      match b.boundary_type with
      | BoundaryType.convergent =>
        let plate1 := plates b.plate1_id
        let plate2 := plates b.plate2_id
        if plate1.plate_type = PlateType.oceanic ∧
            plate2.plate_type = PlateType.oceanic then
          let etype := if rBranch < 3/10 then "volcano" else "earthquake"
          let magnitude := uniformDraw 5 (17/2) rMag
          let alts2 := if etype = "volcano" then raiseAltitude alts xy (15/100)
            else alts
          (some ⟨etype, xy.1, xy.2, year, magnitude⟩, alts2)
        else if plate1.plate_type = PlateType.continental ∧
            plate2.plate_type = PlateType.continental then
          let magnitude := uniformDraw 4 7 rMag
          (some ⟨"mountain_building", xy.1, xy.2, year, magnitude⟩,
            raiseAltitude alts xy (10/100))
        else
          let etype := if rBranch < 4/10 then "volcano" else "earthquake"
          let magnitude := uniformDraw 6 9 rMag
          let alts2 := if etype = "volcano" then raiseAltitude alts xy (12/100)
            else alts
          (some ⟨etype, xy.1, xy.2, year, magnitude⟩, alts2)
      | BoundaryType.divergent =>
        let etype := if rBranch < 7/10 then "earthquake" else "volcano"
        let magnitude := uniformDraw 4 (13/2) rMag
        let alts2 := if etype = "volcano" then raiseAltitude alts xy (8/100)
          else alts
        (some ⟨etype, xy.1, xy.2, year, magnitude⟩, alts2)
      | BoundaryType.transform =>
        let magnitude := uniformDraw 5 8 rMag
        (some ⟨"earthquake", xy.1, xy.2, year, magnitude⟩, alts)

/-- C7: a convergent boundary between two continental plates with
activity level 1.0 and a non-empty tile list always yields a
mountain-building event: the skip draw lies in [0,1) so never exceeds
the activity, and the continental-continental branch emits
mountain_building unconditionally, never volcano or earthquake. -/
theorem convergent_continental_mountain_building
    (plates : ℕ → TectonicPlate) (year : ℤ) (b : PlateBoundary)
    (rSkip : ℚ) (choiceIdx : ℕ) (rBranch : ℚ) (rMag : ℚ)
    (alts : ℤ × ℤ → Option ℚ)
    (hbt : b.boundary_type = BoundaryType.convergent)
    (hp1 : (plates b.plate1_id).plate_type = PlateType.continental)
    (hp2 : (plates b.plate2_id).plate_type = PlateType.continental)
    (hact : b.activity_level = 1)
    (hne : b.tiles ≠ [])
    (hr0 : 0 ≤ rSkip) (hr1 : rSkip < 1) :
    ∃ e, (simulateBoundaryEvent plates year b rSkip choiceIdx rBranch rMag
        alts).1 = some e ∧ e.event_type = "mountain_building" := by
  obtain ⟨p1id, p2id, bt, btiles, act⟩ := b
  simp only at hbt hact hne hp1 hp2
  subst hbt hact
  rcases btiles with _ | ⟨t, ts⟩
  · exact absurd rfl hne
  have hskip : ¬ rSkip > (1 : ℚ) := by linarith
  have hoo : ¬ ((plates p1id).plate_type = PlateType.oceanic ∧
      (plates p2id).plate_type = PlateType.oceanic) := by
    rw [hp1]; rintro ⟨h, -⟩; exact PlateType.noConfusion h
  have hcc : (plates p1id).plate_type = PlateType.continental ∧
      (plates p2id).plate_type = PlateType.continental := ⟨hp1, hp2⟩
  simp only [simulateBoundaryEvent, if_neg hskip, if_neg hoo, if_pos hcc]
  exact ⟨_, rfl, rfl⟩

/-- Concrete instantiation of convergent_continental_mountain_building:
two continental plates, a one-tile convergent boundary at activity 1,
skip draw 1/2. -/
theorem convergent_continental_mountain_building_witness :
    ∃ e, (simulateBoundaryEvent
        (fun i => ⟨i, PlateType.continental, ∅, 3, 0, 100⟩) 1
        ⟨0, 1, BoundaryType.convergent, [(2, 2)], 1⟩
        (1/2) 0 (1/2) (1/2) (fun _ => some (1/2))).1 = some e ∧
      e.event_type = "mountain_building" :=
  convergent_continental_mountain_building
    (fun i => ⟨i, PlateType.continental, ∅, 3, 0, 100⟩) 1
    ⟨0, 1, BoundaryType.convergent, [(2, 2)], 1⟩
    (1/2) 0 (1/2) (1/2) (fun _ => some (1/2))
    rfl rfl rfl rfl (by simp) (by norm_num) (by norm_num)

/-! ## World and WorldGenerator construction (world.py lines 12-32,
world_generator.py lines 14-33) -/

/-- World of world.py, restricted to the constructor-assigned state. -/
structure World where
  width : ℤ
  height : ℤ
  seed : Option ℤ
  tiles : List (List Tile)

/-- World.__init__ (world.py lines 12-32).  A raised exception would be
an Except.error; the source body contains no validation and no raise, so
the embedding is unconditionally ok. -/
def worldInit (width height : ℤ) (seed : Option ℤ) : Except String World :=
  Except.ok ⟨width, height, seed, []⟩

/-- WorldGenerator of world_generator.py, restricted to the
constructor-assigned dimensions and seed. -/
structure WorldGenerator where
  width : ℤ
  height : ℤ
  seed : Option ℤ

/-- WorldGenerator.__init__ (world_generator.py lines 14-33): stores
width, height and seed with no validation and no raise. -/
def worldGeneratorInit (width height : ℤ) (seed : Option ℤ) :
    Except String WorldGenerator :=
  Except.ok ⟨width, height, seed⟩

/-- C8 counterexample: constructing with width 0 and height -3 (both
non-positive) does not fail; both constructors return an object storing
the given dimensions, refuting the claim that construction rejects
non-positive dimensions with an error. -/
theorem construction_no_validation_counterexample :
    worldInit 0 (-3) none = Except.ok ⟨0, -3, none, []⟩ ∧
    worldGeneratorInit 0 (-3) none = Except.ok ⟨0, -3, none⟩ ∧
    (0 : ℤ) ≤ 0 ∧ (-3 : ℤ) ≤ 0 :=
  ⟨rfl, rfl, le_refl 0, by norm_num⟩

/-- C8 (amended): construction never fails; for every width, height and
seed, including non-positive dimensions, World.__init__ and
WorldGenerator.__init__ succeed and produce an object storing exactly
the given values. -/
theorem construction_always_succeeds (w h : ℤ) (s : Option ℤ) :
    worldInit w h s = Except.ok ⟨w, h, s, []⟩ ∧
    worldGeneratorInit w h s = Except.ok ⟨w, h, s⟩ :=
  ⟨rfl, rfl⟩

/-! ## River generation (world_generator.py lines 186-252) -/

/-- The eight neighbor offsets of generate_rivers line 230, in source
order. -/
def neighborDirs : List (ℤ × ℤ) :=
  [(-1, 0), (1, 0), (0, -1), (0, 1), (-1, -1), (1, 1), (-1, 1), (1, -1)]

/-- min(neighbors, key=altitude) of generate_rivers line 240: the first
entry of least altitude (Python min keeps the earliest minimum). -/
def pickMinNeighbor : List (ℤ × ℤ × ℚ) → Option (ℤ × ℤ × ℚ)
  | [] => none
  | n :: ns => some (ns.foldl (fun best c => if c.2.2 < best.2.2 then c else best) n)

/-- The steepest-descent walk of generate_rivers (lines 213-241): with
remaining fuel (the 500-step cap), stop on a revisited tile, append the
current tile to the path, stop on water, collect the in-bounds unvisited
8-neighbors, stop when none remain, else move to the first neighbor of
least altitude. -/
def riverWalkAux (w h : ℤ) (alt : ℤ → ℤ → ℚ) (isW : ℤ → ℤ → Bool) :
    ℕ → ℤ → ℤ → List (ℤ × ℤ) → List (ℤ × ℤ) → List (ℤ × ℤ)
  | 0, _, _, _, path => path
  | fuel + 1, x, y, visited, path =>
    if (x, y) ∈ visited then path
    else
      let visited2 := (x, y) :: visited
      let path2 := path ++ [(x, y)]
      if isW x y then path2
      else
        let neighbors := neighborDirs.filterMap (fun d =>
          let nx := x + d.1
          let ny := y + d.2
          if 0 ≤ nx ∧ nx < w ∧ 0 ≤ ny ∧ ny < h ∧ (nx, ny) ∉ visited2
          then some (nx, ny, alt nx ny) else none)
        match pickMinNeighbor neighbors with
        | none => path2
        | some n => riverWalkAux w h alt isW fuel n.1 n.2.1 visited2 path2

/-- One full river walk from a start tile, with the 500-step cap of the
source. -/
def riverWalk (w h : ℤ) (alt : ℤ → ℤ → ℚ) (isW : ℤ → ℤ → Bool)
    (sx sy : ℤ) : List (ℤ × ℤ) :=
  riverWalkAux w h alt isW 500 sx sy [] []

/-- The per-tile commit of generate_rivers lines 245-249: river flag
true, flow 1.0, water resource 100. -/
def riverify (t : Tile) : Tile :=
  { t with
    is_river := true
    river_flow := 1
    resources := fun k => if k = "water" then 100 else t.resources k }

/-- The commit loop of generate_rivers lines 245-249: walk the path and
riverify every non-water tile on it. -/
def commitPath (tiles : ℤ × ℤ → Tile) (path : List (ℤ × ℤ)) : ℤ × ℤ → Tile :=
  path.foldl (fun ts p =>
    if (ts p).is_water then ts
    else fun q => if q = p then riverify (ts p) else ts q) tiles

/-- Lines 244-250 of generate_rivers: commit the walked path exactly
when its length reaches min_length, else leave the grid untouched. -/
def commitRiver (tiles : ℤ × ℤ → Tile) (path : List (ℤ × ℤ))
    (minLength : ℕ) : ℤ × ℤ → Tile :=
  if minLength ≤ path.length then commitPath tiles path else tiles

lemma riverify_is_water (t : Tile) : (riverify t).is_water = t.is_water := rfl

lemma riverify_idem (t : Tile) : riverify (riverify t) = riverify t := by
  unfold riverify
  ext k
  all_goals simp only
  by_cases hk : k = "water" <;> simp [hk]

/-- Pointwise description of the commit loop: a tile changes exactly
when it lies on the path and is not water, and then it is riverified
(once, no matter how often the path revisits it). -/
lemma commitPath_apply (path : List (ℤ × ℤ)) (tiles : ℤ × ℤ → Tile)
    (p : ℤ × ℤ) :
    commitPath tiles path p =
      if p ∈ path ∧ (tiles p).is_water = false then riverify (tiles p)
      else tiles p := by
  induction path generalizing tiles with
  | nil => simp [commitPath]
  | cons q rest ih =>
    have hstep : commitPath tiles (q :: rest) =
        commitPath (if (tiles q).is_water then tiles
          else fun r => if r = q then riverify (tiles q) else tiles r) rest := by
      simp [commitPath, List.foldl_cons]
    rw [hstep, ih]
    by_cases hwq : (tiles q).is_water
    · simp only [if_pos hwq]
      by_cases hq : p = q
      · subst hq
        have : ¬ (tiles p).is_water = false := by simp [hwq]
        simp [this]
      · have hmem : p ∈ q :: rest ↔ p ∈ rest := by simp [hq]
        simp [hmem]
    · simp only [if_neg hwq]
      by_cases hq : p = q
      · subst hq
        simp only [if_pos rfl]
        have hw : (tiles p).is_water = false := by simpa using hwq
        have hw2 : (riverify (tiles p)).is_water = false := by
          rw [riverify_is_water]; exact hw
        by_cases hr : p ∈ rest
        · simp [hr, hw, hw2, riverify_idem]
        · simp [hr, hw, hw2]
      · have hne : ¬ (p = q) := hq
        simp only [if_neg hne]
        have hmem : p ∈ q :: rest ↔ p ∈ rest := by simp [hq]
        simp [hmem]

/-- C9: the walked path is committed exactly when its length reaches
min_length: a shorter path leaves every tile of the grid unchanged, and
a long-enough path riverifies (river flag, flow 1.0, water resource 100)
precisely the non-water tiles on the path, leaving all other tiles
unchanged. -/
theorem river_commit_iff_min_length (w h : ℤ) (alt : ℤ → ℤ → ℚ)
    (tiles : ℤ × ℤ → Tile) (sx sy : ℤ) (minLength : ℕ) :
    ((riverWalk w h alt (fun x y => (tiles (x, y)).is_water) sx sy).length <
        minLength →
      ∀ p, commitRiver tiles
          (riverWalk w h alt (fun x y => (tiles (x, y)).is_water) sx sy)
          minLength p = tiles p) ∧
    (minLength ≤
        (riverWalk w h alt (fun x y => (tiles (x, y)).is_water) sx sy).length →
      ∀ p, commitRiver tiles
          (riverWalk w h alt (fun x y => (tiles (x, y)).is_water) sx sy)
          minLength p =
        if p ∈ riverWalk w h alt (fun x y => (tiles (x, y)).is_water) sx sy ∧
            (tiles p).is_water = false
        then riverify (tiles p) else tiles p) := by
  constructor
  · intro hshort p
    unfold commitRiver
    rw [if_neg (by omega)]
  · intro hlong p
    unfold commitRiver
    rw [if_pos hlong, commitPath_apply]

/-- A constant land tile used to instantiate the river theorems
concretely. -/
def plainTile : Tile :=
  ⟨0, 0, 7/10, 1/2, 1/2, none, fun _ => 0, false, false, 0⟩

/-- Concrete instantiation of river_commit_iff_min_length: on a 1 x 1
land grid the walk is the single start tile, its length 1 is below
min_length 5, and the grid is unchanged. -/
theorem river_commit_iff_min_length_witness :
    commitRiver (fun _ => plainTile)
        (riverWalk 1 1 (fun _ _ => 7/10)
          (fun x y => ((fun _ : ℤ × ℤ => plainTile) (x, y)).is_water) 0 0)
        5 (0, 0) =
      (fun _ : ℤ × ℤ => plainTile) (0, 0) :=
  (river_commit_iff_min_length 1 1 (fun _ _ => 7/10)
      (fun _ => plainTile) 0 0 5).1 (by decide) (0, 0)

/-! ## Water cycle (climate_system.py lines 206-248 and 295-350) -/

/-- Season of climate_system.py. -/
inductive Season where
  | spring | summer | autumn | winter
  deriving DecidableEq, Repr

/-- ClimateSystem._calculate_precipitation (lines 206-248): flat 50 for
water tiles; for land, humidity * 200 scaled by a temperature factor and
an altitude factor, a seasonal multiplier, then clamped into [0, 500]. -/
def calcPrecipitation (season : Season) (humidity temperature altitude : ℚ)
    (isWater : Bool) : ℚ :=
  if isWater then 50
  else
    let basePrecip := humidity * 200
    let tempFactor :=
      if temperature > 0 then 1 + temperature / 30 * (1/2) else 3/10
    let altitudeFactor := 1 + altitude * (8/10)
    let precip := basePrecip * tempFactor * altitudeFactor
    let precip2 :=
      if season = Season.spring ∨ season = Season.autumn then precip * (12/10)
      else if season = Season.winter then precip * (8/10)
      else precip
    max 0 (min 500 precip2)

/-- WaterCycle of climate_system.py. -/
structure WaterCycle where
  evaporation : ℚ
  condensation : ℚ
  precipitation : ℚ
  runoff : ℚ
  infiltration : ℚ

/-- Loop body of ClimateSystem.simulate_water_cycle (lines 310-347) for
one tile, given the weather-pattern temperature, precipitation and cloud
cover already computed for that tile. -/
def waterCycleStep (isWater : Bool) (humidity altitude : ℚ)
    (wTemp wPrecip wCloud : ℚ) : WaterCycle :=
  let evaporation :=
    if isWater then (if wTemp > 0 then (150 : ℚ) else 30) * (1 + wTemp / 30)
    else (if wTemp > 0 then (50 : ℚ) else 10) * humidity * (1 + wTemp / 40)
  let condensation := evaporation * wCloud
  let precipitation := wPrecip
  let infiltration :=
    if isWater = false ∧ precipitation > 0 then
      precipitation * (if altitude < 1/2 then 6/10 else 3/10)
    else 0
  let runoff := if isWater = false then precipitation - infiltration else 0
  ⟨evaporation, condensation, precipitation, runoff, infiltration⟩

lemma waterCycleStep_land_infiltration (hum alt wT wP wC : ℚ) :
    (waterCycleStep false hum alt wT wP wC).infiltration =
      if wP > 0 then wP * (if alt < 1/2 then 6/10 else 3/10) else 0 := by
  simp [waterCycleStep]

lemma waterCycleStep_land_runoff (hum alt wT wP wC : ℚ) :
    (waterCycleStep false hum alt wT wP wC).runoff =
      wP - (waterCycleStep false hum alt wT wP wC).infiltration := by
  simp [waterCycleStep]

lemma waterCycleStep_water_infiltration (hum alt wT wP wC : ℚ) :
    (waterCycleStep true hum alt wT wP wC).infiltration = 0 := by
  simp [waterCycleStep]

lemma waterCycleStep_water_runoff (hum alt wT wP wC : ℚ) :
    (waterCycleStep true hum alt wT wP wC).runoff = 0 := by
  simp [waterCycleStep]

/-- C10: the per-tile water-cycle budget.  Weather precipitation is
always nonnegative (so the hypothesis holds for every tile the system
processes); on land, infiltration + runoff equals the weather
precipitation exactly, both are nonnegative, and infiltration is
precipitation times 0.6 below altitude 0.5 and times 0.3 otherwise; on
water, infiltration and runoff are exactly 0. -/
theorem water_cycle_budget (isW : Bool) (hum alt wT wP wC : ℚ)
    (hP : 0 ≤ wP) :
    (∀ season hum2 temp2 alt2 isw2,
      0 ≤ calcPrecipitation season hum2 temp2 alt2 isw2) ∧
    (isW = false →
      (waterCycleStep isW hum alt wT wP wC).infiltration +
          (waterCycleStep isW hum alt wT wP wC).runoff = wP ∧
        0 ≤ (waterCycleStep isW hum alt wT wP wC).infiltration ∧
        0 ≤ (waterCycleStep isW hum alt wT wP wC).runoff ∧
        (waterCycleStep isW hum alt wT wP wC).infiltration =
          wP * (if alt < 1/2 then 6/10 else 3/10)) ∧
    (isW = true →
      (waterCycleStep isW hum alt wT wP wC).infiltration = 0 ∧
        (waterCycleStep isW hum alt wT wP wC).runoff = 0) := by
  refine ⟨?_, ?_, ?_⟩
  · intro season hum2 temp2 alt2 isw2
    unfold calcPrecipitation
    rcases isw2 with _ | _
    · simp only [Bool.false_eq_true, if_false]
      exact le_max_left 0 _
    · norm_num
  · rintro rfl
    rw [waterCycleStep_land_runoff, waterCycleStep_land_infiltration]
    by_cases hpos : wP > 0
    · rw [if_pos hpos]
      by_cases halt : alt < 1/2
      · simp only [if_pos halt]
        exact ⟨by ring, by positivity, by nlinarith, trivial⟩
      · simp only [if_neg halt]
        exact ⟨by ring, by positivity, by nlinarith, trivial⟩
    · have hz : wP = 0 := le_antisymm (not_lt.mp hpos) hP
      rw [if_neg hpos]
      subst hz
      exact ⟨by ring, le_refl 0, by norm_num, by simp⟩
  · rintro rfl
    exact ⟨waterCycleStep_water_infiltration hum alt wT wP wC,
      waterCycleStep_water_runoff hum alt wT wP wC⟩

/-- Concrete instantiation of water_cycle_budget on a land tile at
altitude 0.25 with weather precipitation 7. -/
theorem water_cycle_budget_witness :
    (∀ season hum2 temp2 alt2 isw2,
      0 ≤ calcPrecipitation season hum2 temp2 alt2 isw2) ∧
    (false = false →
      (waterCycleStep false (1/2) (1/4) 10 7 (1/2)).infiltration +
          (waterCycleStep false (1/2) (1/4) 10 7 (1/2)).runoff = 7 ∧
        0 ≤ (waterCycleStep false (1/2) (1/4) 10 7 (1/2)).infiltration ∧
        0 ≤ (waterCycleStep false (1/2) (1/4) 10 7 (1/2)).runoff ∧
        (waterCycleStep false (1/2) (1/4) 10 7 (1/2)).infiltration =
          7 * (if (1/4 : ℚ) < 1/2 then 6/10 else 3/10)) ∧
    (false = true →
      (waterCycleStep false (1/2) (1/4) 10 7 (1/2)).infiltration = 0 ∧
        (waterCycleStep false (1/2) (1/4) 10 7 (1/2)).runoff = 0) :=
  water_cycle_budget false (1/2) (1/4) 10 7 (1/2) (by norm_num)

/-! ## Determinism of full generation (spec section 8) against the
process-global random streams the source actually consumes
(world_generator.py lines 206-207 use the global numpy stream,
plate_tectonics.py lines 102-103 the global random module; neither is
ever seeded from the world seed). -/

/-- The attempt loop of generate_rivers (lines 199-251): up to
num_rivers * 3 attempts, each drawing a start tile from the
PROCESS-GLOBAL numpy random stream (modelled as the explicit stream
draws, reduced into range like randint); an attempt below altitude 0.6
is skipped; a walked path is committed when it reaches min_length; the
loop stops after num_rivers commits. -/
def generateRiversAux (w h : ℕ) (alt : ℤ → ℤ → ℚ)
    (minLength numRivers : ℕ) (draws : ℕ → ℕ × ℕ) :
    ℕ → ℕ → ℕ → (ℤ × ℤ → Tile) → (ℤ × ℤ → Tile)
  | 0, _, _, tiles => tiles
  | att + 1, idx, created, tiles =>
    if numRivers ≤ created then tiles
    else
      let sx : ℤ := ((draws idx).1 % w : ℕ)
      let sy : ℤ := ((draws idx).2 % h : ℕ)
      if alt sx sy < 6/10 then
        generateRiversAux w h alt minLength numRivers draws att (idx + 1)
          created tiles
      else
        let path := riverWalk w h alt (fun x y => (tiles (x, y)).is_water) sx sy
        if minLength ≤ path.length then
          generateRiversAux w h alt minLength numRivers draws att (idx + 1)
            (created + 1) (commitPath tiles path)
        else
          generateRiversAux w h alt minLength numRivers draws att (idx + 1)
            created tiles

/-- WorldGenerator.generate_rivers: the full loop over
num_rivers * 3 attempts.  The stream parameter stands for the global
numpy random state, which the constructor never seeds from the world
seed. -/
def generateRivers (w h : ℕ) (alt : ℤ → ℤ → ℚ) (tiles : ℤ × ℤ → Tile)
    (numRivers minLength : ℕ) (draws : ℕ → ℕ × ℕ) : ℤ × ℤ → Tile :=
  generateRiversAux w h alt minLength numRivers draws (numRivers * 3) 0 0 tiles

/-- Altitude map of the determinism failing input: a 5 x 1 ridge
descending from 0.9 to 0.5. -/
def cexAlt : ℤ → ℤ → ℚ := fun x _ =>
  if x = 0 then 9/10
  else if x = 1 then 8/10
  else if x = 2 then 7/10
  else if x = 3 then 65/100
  else 1/2

/-- Tile grid of the determinism failing input: land tiles carrying
cexAlt altitudes, no rivers. -/
def cexTiles : ℤ × ℤ → Tile :=
  fun p => ⟨p.1, p.2, cexAlt p.1 p.2, 1/2, 1/2, none, fun _ => 0, false, false, 0⟩

/-- C1 failing input: with width 5, height 1, num_rivers 1, min_length 5
and an IDENTICAL seed (the seed does not reach the river loop at all),
two runs differing only in the state of the process-global numpy random
stream produce different tile grids: a stream starting the walk at x=0
commits a length-5 river through (0,0), a stream repeatedly drawing x=4
(altitude 0.5 < 0.6) commits nothing. -/
theorem rivers_depend_on_global_rng :
    (generateRivers 5 1 cexAlt cexTiles 1 5 (fun _ => (0, 0)) (0, 0)).is_river
        = true ∧
    (generateRivers 5 1 cexAlt cexTiles 1 5 (fun _ => (4, 0)) (0, 0)).is_river
        = false := by
  constructor <;> with_unfolding_all decide

end Overworld
